import Mathlib

/-!
Verification of the location-aware session coordination kernel of the
McDonald's Malaysia map frontend.

The development shallowly embeds the relevant source files:

* `src/utils/distance.ts` — Haversine distance (`calculateDistance`,
  `isWithinRadius`, `MAP_CONFIG`), over `ℝ` (JS numbers modelled as reals).
* `src/app/layout.tsx` — `calculateIntersections`, the pairwise proximity
  index builder.  The JS `Map<number, OutletIntersectionData>` is modelled
  as an association list built in iteration order; `Array.prototype.sort`
  (stable since ES2019) with comparator `a.distance_km - b.distance_km` is
  modelled as a stable insertion sort by `distance_km ≤`.
* `src/hooks/useGeolocation.ts` — the geolocation hook with its
  `tryWithOptions` retry loop; the platform sensor is a parameter
  (`GeolocationOptions → SensorOutcome`), timeouts are exact rationals.
* `src/hooks/useChatSession.ts` — the chat session state and its
  operations; React `setState` dispatches are surfaced as booleans.
* `src/components/chat/ChatHeader.tsx` — the location effect that feeds
  the geolocation value into the chat session.
-/

namespace McdVerify

/-! ## Data model (src/types/index.ts, src/types/chat.ts) -/

/-- `Outlet` from `src/types/index.ts`.  `id` is a JS number used only as a
key, modelled as `Int`; coordinates are JS numbers modelled as `ℝ`.
The optional metadata fields that no kernel code reads are omitted. -/
structure Outlet where
  id : Int
  name : String
  address : String
  latitude : ℝ
  longitude : ℝ
  operating_hours : Option String := none

/-- `NeighborOutlet extends Outlet { distance_km }` from `src/types/index.ts`. -/
structure NeighborOutlet extends Outlet where
  distance_km : ℝ

/-- `OutletIntersectionData` from `src/types/index.ts`. -/
structure OutletIntersectionData where
  outletId : Int
  hasIntersection : Bool
  intersectingOutlets : List NeighborOutlet

/-! ## Geometry (src/utils/distance.ts) -/

/-- JS `Math.atan2 y x` (for the argument ranges the Haversine formula
produces; both arguments are nonnegative square roots there). -/
noncomputable def atan2 (y x : ℝ) : ℝ :=
  if 0 < x then Real.arctan (y / x)
  else if x < 0 then
    (if 0 ≤ y then Real.arctan (y / x) + Real.pi else Real.arctan (y / x) - Real.pi)
  else
    (if 0 < y then Real.pi / 2 else if y < 0 then -(Real.pi / 2) else 0)

/-- The intermediate value `a` of `calculateDistance`
(`src/utils/distance.ts:20-22`):
`sin²(Δφ/2) + cos φ1 · cos φ2 · sin²(Δλ/2)` with `φ, λ` in radians. -/
noncomputable def haversineA (lat1 lon1 lat2 lon2 : ℝ) : ℝ :=
  Real.sin ((lat2 - lat1) * Real.pi / 180 / 2) * Real.sin ((lat2 - lat1) * Real.pi / 180 / 2) +
    Real.cos (lat1 * Real.pi / 180) * Real.cos (lat2 * Real.pi / 180) *
      Real.sin ((lon2 - lon1) * Real.pi / 180 / 2) * Real.sin ((lon2 - lon1) * Real.pi / 180 / 2)

/-- `calculateDistance` (`src/utils/distance.ts:13-26`): Haversine distance
in meters, Earth radius `6371e3` m, `c = 2·atan2(√a, √(1−a))`. -/
noncomputable def calculateDistance (lat1 lon1 lat2 lon2 : ℝ) : ℝ :=
  6371e3 *
    (2 * atan2 (Real.sqrt (haversineA lat1 lon1 lat2 lon2))
      (Real.sqrt (1 - haversineA lat1 lon1 lat2 lon2)))

/-- `isWithinRadius` (`src/utils/distance.ts:55-64`). -/
noncomputable def isWithinRadius (lat1 lon1 lat2 lon2 radiusMeters : ℝ) : Prop :=
  calculateDistance lat1 lon1 lat2 lon2 ≤ radiusMeters

/-- `MAP_CONFIG.radius` (`src/utils/distance.ts:87`): 5 km in meters. -/
noncomputable def MAP_CONFIG_radius : ℝ := 5000

/-- JS `Math.round` (round half toward positive infinity). -/
noncomputable def mathRound (x : ℝ) : ℝ := ((⌊x + 1/2⌋ : ℤ) : ℝ)

/-- `Math.round(x * 100) / 100`, the two-decimal rounding applied to
`distanceMeters / 1000` at `src/app/layout.tsx:117`. -/
noncomputable def roundTo2 (x : ℝ) : ℝ := mathRound (x * 100) / 100

/-! ## Proximity index (src/app/layout.tsx, `calculateIntersections`) -/

/-- Comparator order of `intersectingOutlets.sort((a, b) => a.distance_km - b.distance_km)`
(`src/app/layout.tsx:123`). -/
def nbLE (a b : NeighborOutlet) : Prop := a.distance_km ≤ b.distance_km

noncomputable instance : DecidableRel nbLE := fun x y => Real.decidableLE x.distance_km y.distance_km

instance : IsTotal NeighborOutlet nbLE := ⟨fun a b => le_total a.distance_km b.distance_km⟩

instance : IsTrans NeighborOutlet nbLE := ⟨fun _ _ _ h1 h2 => le_trans h1 h2⟩

open Classical

/-- The inner `outlets.forEach` push loop of `calculateIntersections`
(`src/app/layout.tsx:93-120`) for one `outlet`, before sorting: skip self,
keep the outlets within `radiusMeters`, and record the rounded distance,
in traversal order. -/
noncomputable def collectedNeighbors (radiusMeters : ℝ) (outlet : Outlet)
    (outlets : List Outlet) : List NeighborOutlet :=
  (outlets.filter (fun other =>
      decide (other.id ≠ outlet.id ∧
        isWithinRadius outlet.latitude outlet.longitude
          other.latitude other.longitude radiusMeters))).map
    (fun other =>
      { toOutlet := other,
        distance_km := roundTo2 (calculateDistance outlet.latitude outlet.longitude
          other.latitude other.longitude / 1000) })

/-- The per-outlet neighbor list of `calculateIntersections`
(`src/app/layout.tsx:89-123`): the collected neighbors sorted by
`distance_km` (JS `Array.prototype.sort` is stable and the comparator
examines only `distance_km`, hence a stable insertion sort by `nbLE`). -/
noncomputable def intersectingOutletsFor (radiusMeters : ℝ) (outlet : Outlet)
    (outlets : List Outlet) : List NeighborOutlet :=
  List.insertionSort nbLE (collectedNeighbors radiusMeters outlet outlets)

/-- `calculateIntersections` (`src/app/layout.tsx:85-135`).  The
`Map<number, OutletIntersectionData>` populated by `intersectionMap.set`
in iteration order is modelled as the association list of
`(outlet.id, record)` pairs; the source always passes
`MAP_CONFIG.radius`, kept here as a parameter. -/
noncomputable def calculateIntersections (radiusMeters : ℝ) (outlets : List Outlet) :
    List (Int × OutletIntersectionData) :=
  outlets.map (fun outlet =>
    (outlet.id,
      { outletId := outlet.id,
        hasIntersection := decide (0 < (intersectingOutletsFor radiusMeters outlet outlets).length),
        intersectingOutlets := intersectingOutletsFor radiusMeters outlet outlets }))

/-- `Map.prototype.get` on the association list model. -/
def mapGet {α : Type} (m : List (Int × α)) (k : Int) : Option α :=
  (m.find? (fun p => p.1 == k)).map Prod.snd

/-- Outlet `bId` is recorded in outlet `aId`'s neighbor list with (rounded)
distance `d` in the index `idx`. -/
def neighborRecorded (idx : List (Int × OutletIntersectionData)) (aId bId : Int) (d : ℝ) : Prop :=
  ∃ rec, mapGet idx aId = some rec ∧
    ∃ n ∈ rec.intersectingOutlets, n.id = bId ∧ n.distance_km = d

/-! ## Geometry lemmas -/

theorem haversineA_symm (lat1 lon1 lat2 lon2 : ℝ) :
    haversineA lat1 lon1 lat2 lon2 = haversineA lat2 lon2 lat1 lon1 := by
  unfold haversineA
  have h1 : (lat1 - lat2) * Real.pi / 180 / 2 = -((lat2 - lat1) * Real.pi / 180 / 2) := by ring
  have h2 : (lon1 - lon2) * Real.pi / 180 / 2 = -((lon2 - lon1) * Real.pi / 180 / 2) := by ring
  rw [h1, h2, Real.sin_neg, Real.sin_neg]
  ring

theorem calculateDistance_symm (lat1 lon1 lat2 lon2 : ℝ) :
    calculateDistance lat1 lon1 lat2 lon2 = calculateDistance lat2 lon2 lat1 lon1 := by
  unfold calculateDistance
  rw [haversineA_symm]

theorem haversineA_self (lat lon : ℝ) : haversineA lat lon lat lon = 0 := by
  unfold haversineA
  simp

theorem calculateDistance_self (lat lon : ℝ) : calculateDistance lat lon lat lon = 0 := by
  unfold calculateDistance
  rw [haversineA_self]
  rw [Real.sqrt_zero, sub_zero, Real.sqrt_one]
  unfold atan2
  rw [if_pos (by norm_num : (0:ℝ) < 1)]
  simp [Real.arctan_zero]

/-! ## Geolocation (src/hooks/useGeolocation.ts, `src/unnamed/part_002`) -/

/-- `UserLocation` from `src/types/chat.ts`. -/
structure UserLocation where
  lat : ℝ
  lng : ℝ

/-- The browser permission states `'granted' | 'denied' | 'prompt' | 'unknown'`. -/
inductive PermissionState where
  | granted
  | denied
  | prompt
  | unknown
deriving DecidableEq

/-- `GeolocationState` (`useGeolocation.ts:5-11`). -/
structure GeolocationState where
  location : Option UserLocation
  isLoading : Bool
  error : Option String
  isSupported : Bool
  permission : PermissionState

/-- `GeolocationOptions` (`useGeolocation.ts:13-17`); all fields optional.
Timeouts in milliseconds are JS numbers that stay within exact decimal
arithmetic here, modelled as `ℚ`. -/
structure GeolocationOptions where
  enableHighAccuracy : Option Bool := none
  timeout : Option ℚ := none
  maximumAge : Option ℚ := none
deriving DecidableEq

/-- `getBrowserOptimizedOptions` (`useGeolocation.ts:20-31`), with the two
user-agent tests as parameters. -/
def getBrowserOptimizedOptions (isFirefox isSafari : Bool) : GeolocationOptions :=
  { enableHighAccuracy := some true,
    timeout := some (if isFirefox then 35000 else if isSafari then 25000 else 15000),
    maximumAge := some 300000 }

/-- JS object spread on one optional field: the right operand wins when present. -/
def mergeField {α : Type} : Option α → Option α → Option α
  | _, some v => some v
  | b, none => b

/-- `{ ...browserOptions, ...options }` (`useGeolocation.ts:149`). -/
def mergeOptions (base override : GeolocationOptions) : GeolocationOptions :=
  { enableHighAccuracy := mergeField base.enableHighAccuracy override.enableHighAccuracy,
    timeout := mergeField base.timeout override.timeout,
    maximumAge := mergeField base.maximumAge override.maximumAge }

/-- The four `GeolocationPositionError` codes switched on at
`useGeolocation.ts:195-211`. -/
inductive GeoErrorCode where
  | permissionDenied
  | positionUnavailable
  | timedOut
  | unknownError
deriving DecidableEq

/-- The error message chosen by `errorHandler` for each code
(`useGeolocation.ts:195-211`; texts abridged). -/
def errorMessageFor : GeoErrorCode → String
  | .permissionDenied => "Location access denied. Please enable location permissions in your browser settings."
  | .positionUnavailable => "Location information is unavailable. Please check your device location settings."
  | .timedOut => "Location request timed out. Please try again."
  | .unknownError => "An error occurred while retrieving location: Unknown error"

/-- The `permission` local of `errorHandler`: initialized to `'unknown'`
(`useGeolocation.ts:189-190`) and reassigned only in the
`PERMISSION_DENIED` case (`useGeolocation.ts:199`). -/
def errorPermissionFor : GeoErrorCode → PermissionState
  | .permissionDenied => .denied
  | .positionUnavailable => .unknown
  | .timedOut => .unknown
  | .unknownError => .unknown

/-- `errorHandler` (`useGeolocation.ts:186-226`): stores the message and
writes `permission` (the `'unknown'` default included) into the state. -/
def errorHandler (st : GeolocationState) (code : GeoErrorCode) : GeolocationState :=
  { st with isLoading := false,
            error := some (errorMessageFor code),
            permission := errorPermissionFor code }

/-- `successHandler` (`useGeolocation.ts:157-184`). -/
def successHandler (st : GeolocationState) (loc : UserLocation) : GeolocationState :=
  { st with location := some loc,
            isLoading := false,
            error := none,
            permission := .granted }

/-- `checkPermission` applying a platform permission query result or
change notification (`useGeolocation.ts:110-117`). -/
def applyPlatformPermission (st : GeolocationState) (result : PermissionState) :
    GeolocationState :=
  { st with permission := result }

/-- `fallbackOptions` built when a `POSITION_UNAVAILABLE` attempt is retried
(`useGeolocation.ts:246-250`): accuracy relaxed, timeout
`min((opts.timeout ?? 15000) * 1.5, 60000)`. -/
def fallbackOptions (opts : GeolocationOptions) : GeolocationOptions :=
  { opts with enableHighAccuracy := some false,
              timeout := some (min ((opts.timeout.getD 15000) * 1.5) 60000) }

/-- Outcome of one `navigator.geolocation.getCurrentPosition` call. -/
inductive SensorOutcome where
  | success (loc : UserLocation)
  | failure (code : GeoErrorCode)

/-- `tryWithOptions` (`useGeolocation.ts:229-258`), with the platform sensor
as an oracle from options to the outcome of that physical call.  Returns
the final outcome together with the options of every sensor call issued,
in order.  Retries only when `attemptsLeft > 0` and the failure code is
`POSITION_UNAVAILABLE`; the call site (`useGeolocation.ts:260`) uses the
default `attemptsLeft = 2`. -/
def tryWithOptions (sensor : GeolocationOptions → SensorOutcome) :
    Nat → GeolocationOptions → SensorOutcome × List GeolocationOptions
  | 0, opts =>
    match sensor opts with
    | .success loc => (.success loc, [opts])
    | .failure code => (.failure code, [opts])
  | n + 1, opts =>
    match sensor opts with
    | .success loc => (.success loc, [opts])
    | .failure code =>
      if code = .positionUnavailable then
        ((tryWithOptions sensor n (fallbackOptions opts)).1,
          opts :: (tryWithOptions sensor n (fallbackOptions opts)).2)
      else (.failure code, [opts])

/-- The synchronous portion of `getCurrentLocation`
(`useGeolocation.ts:128-156`) up to the point where the first sensor call
is issued: it checks only `isSupported` and then unconditionally starts a
request cycle — there is no test of `isLoading` or any other dedup state.
The boolean reports whether a sensor call is issued. -/
def getCurrentLocationBegin (st : GeolocationState) : GeolocationState × Bool :=
  if st.isSupported = false then
    ({ st with error := some "Geolocation is not supported by this browser" }, false)
  else
    ({ st with isLoading := true, error := none }, true)

/-- A whole `getCurrentLocation` invocation (`useGeolocation.ts:128-262`)
against a sensor oracle: the unsupported bail-out, option merging, the
`tryWithOptions` cycle with `attemptsLeft = 2`, and the success/error
handler applied to the state.  Returns the final state, the trace of
sensor calls, and the resolved location (`none` when the promise rejects). -/
def getCurrentLocationRun (st : GeolocationState) (options : GeolocationOptions)
    (isFirefox isSafari : Bool) (sensor : GeolocationOptions → SensorOutcome) :
    GeolocationState × List GeolocationOptions × Option UserLocation :=
  if st.isSupported = false then
    ({ st with error := some "Geolocation is not supported by this browser" }, [], none)
  else
    match tryWithOptions sensor 2
        (mergeOptions (getBrowserOptimizedOptions isFirefox isSafari) options) with
    | (.success loc, calls) =>
        (successHandler { st with isLoading := true, error := none } loc, calls, some loc)
    | (.failure code, calls) =>
        (errorHandler { st with isLoading := true, error := none } code, calls, none)

/-! ## Chat session (src/hooks/useChatSession.ts, src/types/chat.ts) -/

/-- Message roles `'user' | 'assistant'`. -/
inductive ChatRole where
  | user
  | assistant
deriving DecidableEq, BEq

/-- `ChatMessage` from `src/types/chat.ts`; the `Date` timestamp is an
abstract tick.  Ids and timestamps are produced by the environment
(`generateMessageId`, `new Date()`) and passed in as parameters. -/
structure ChatMessage where
  id : String
  content : String
  role : ChatRole
  timestamp : Nat
deriving DecidableEq

/-- `ChatError` from `src/types/chat.ts`. -/
structure ChatError where
  message : String
  code : Option String := none
  details : Option String := none
deriving DecidableEq

/-- `ChatState` from `src/types/chat.ts`. -/
structure ChatState where
  isOpen : Bool
  sessionId : Option String
  messages : List ChatMessage
  isTyping : Bool
  isLoading : Bool
  error : Option ChatError
  userLocation : Option UserLocation

/-- `initialState` (`useChatSession.ts:9-17`). -/
def initialState : ChatState :=
  { isOpen := false,
    sessionId := none,
    messages := [],
    isTyping := false,
    isLoading := false,
    error := none,
    userLocation := none }

/-- `addMessage` (`useChatSession.ts:47-62`): append one message. -/
def addMessage (st : ChatState) (content : String) (role : ChatRole)
    (msgId : String) (ts : Nat) : ChatState :=
  { st with messages := st.messages ++ [{ id := msgId, content := content, role := role, timestamp := ts }] }

/-- JS falsiness of `message.trim()`: the trimmed string is empty exactly
when every character of `message` is whitespace (stated that way because it
is what the guard observes, and it evaluates by `decide`). -/
def trimEmpty (message : String) : Bool := message.toList.all Char.isWhitespace

/-- The synchronous portion of `sendMessage` (`useChatSession.ts:104-129`)
up to the remote request: the guard `!message.trim() || !state.sessionId`
returns silently (no state change, no error recorded); otherwise the user
message is appended optimistically, `isTyping` is set and `error` cleared,
and the remote request is issued.  No in-flight/busy condition is
examined.  The boolean reports whether the remote request is issued. -/
def sendMessageBegin (st : ChatState) (message : String) (msgId : String) (ts : Nat) :
    ChatState × Bool :=
  if trimEmpty message = true ∨ st.sessionId = none then (st, false)
  else
    ({ addMessage st message .user msgId ts with isTyping := true, error := none }, true)

/-- Outcome of the awaited `chatApi.sendMessage` call. -/
inductive SendOutcome where
  | success (responseText : String)
  | apiError (err : Option ChatError)
  | thrown

/-- The continuation of `sendMessage` after the remote call resolves
(`useChatSession.ts:131-146`). -/
def sendMessageComplete (st : ChatState) (outcome : SendOutcome)
    (msgId : String) (ts : Nat) : ChatState :=
  match outcome with
  | .success t => { addMessage st t .assistant msgId ts with isTyping := false }
  | .apiError e =>
      { st with error := some (e.getD { message := "Failed to send message" }),
                isTyping := false }
  | .thrown =>
      { st with error := some { message := "Failed to send message" },
                isTyping := false }

/-- `setUserLocation` (`useChatSession.ts:184-192`): it unconditionally
dispatches `updateState({ userLocation: location })`; there is no equality
test against the stored value.  The boolean records that a state update
(hence a React state-change notification, the spread always builds a fresh
state object) was dispatched. -/
def setUserLocation (st : ChatState) (location : Option UserLocation) : ChatState × Bool :=
  ({ st with userLocation := location }, true)

/-- Outcome of the awaited `chatApi.deleteSession` call. -/
inductive DeleteOutcome where
  | resolved
  | rejected

/-- `endSession` (`useChatSession.ts:197-207`): when a session exists the
remote delete is issued (boolean) and a rejection is only logged; in every
case the state is reset to `initialState`. -/
def endSession (st : ChatState) (outcome : DeleteOutcome) : ChatState × Bool :=
  match st.sessionId with
  | some _ =>
    match outcome with
    | .resolved => (initialState, true)
    | .rejected => (initialState, true)
  | none => (initialState, false)

/-! ## ChatHeader location effect (src/components/chat/ChatHeader.tsx) -/

/-- The two refs of `ChatHeader` (`ChatHeader.tsx:15-16`). -/
structure HeaderRefs where
  autoLocationAttempted : Bool
  previousLocation : Option UserLocation

/-- The location effect of `ChatHeader` (`ChatHeader.tsx:37-85`): reset the
refs when no chat session is available; when the hook reports a location
whose `(lat, lng)` differs from `previousLocation` (value comparison,
`ChatHeader.tsx:50-54`), record it and call `chatSession.setUserLocation`;
otherwise, with no location yet, attempt one automatic
`getCurrentLocation`.  Returns the updated refs, whether
`setUserLocation` was called, and whether `getCurrentLocation` was
called. -/
noncomputable def locationEffect (chatSession : Bool) (location : Option UserLocation)
    (isLoading : Bool) (permission : PermissionState) (refs : HeaderRefs) :
    HeaderRefs × Bool × Bool :=
  if chatSession = false then
    ({ autoLocationAttempted := false, previousLocation := none }, false, false)
  else
    match location with
    | some l =>
      match refs.previousLocation with
      | none =>
        ({ refs with previousLocation := some { lat := l.lat, lng := l.lng } }, true, false)
      | some p =>
        if p.lat ≠ l.lat ∨ p.lng ≠ l.lng then
          ({ refs with previousLocation := some { lat := l.lat, lng := l.lng } }, true, false)
        else (refs, false, false)
    | none =>
      if refs.autoLocationAttempted = false ∧ isLoading = false ∧ permission ≠ .denied then
        ({ refs with autoLocationAttempted := true }, false, true)
      else (refs, false, false)

/-! ## Concrete states used by witnesses and counterexamples -/

/-- A coordinator state with a live session and the panel open. -/
def activeState : ChatState :=
  { initialState with isOpen := true, sessionId := some "session-1" }

/-- A coordinator state with the panel open but no session (`Absent`). -/
def absentOpenState : ChatState := { initialState with isOpen := true }

/-- A sample location (the map's Kuala Lumpur center). -/
noncomputable def klLocation : UserLocation := { lat := 3.139, lng := 101.6869 }

/-- `activeState` with `klLocation` stored as the user location. -/
noncomputable def locatedState : ChatState :=
  { activeState with userLocation := some klLocation }

/-! ## C3 — concurrent `sendMessage` -/

/-- C3 counterexample: in an `Active` state, a second `sendMessage` issued
before the first resolves is *not* rejected: both invocations issue a
remote request, and after the first call's response is appended the
transcript holds two user messages — not the claimed single user message
with nothing from the second call (no `Busy` rejection exists in the code). -/
theorem c3_counterexample :
    (sendMessageBegin activeState "hello" "m1" 0).2 = true ∧
    (sendMessageBegin (sendMessageBegin activeState "hello" "m1" 0).1 "again" "m2" 1).2 = true ∧
    ((sendMessageComplete
        (sendMessageBegin (sendMessageBegin activeState "hello" "m1" 0).1 "again" "m2" 1).1
        (.success "reply") "m3" 2).messages.filter
      (fun m => m.role == ChatRole.user)).length = 2 := by
  decide

/-- C3 (amended): `sendMessage` performs no busy check: while a send is
outstanding, a second call with nonempty text and a live session also
issues a remote request, and the transcript gains both user messages in
order — sends are neither rejected with `Busy` nor serialized. -/
theorem c3_sends_not_serialized (st : ChatState) (sid m1 m2 id1 id2 : String) (t1 t2 : Nat)
    (hs : st.sessionId = some sid) (h1 : trimEmpty m1 = false) (h2 : trimEmpty m2 = false) :
    (sendMessageBegin st m1 id1 t1).2 = true ∧
    (sendMessageBegin (sendMessageBegin st m1 id1 t1).1 m2 id2 t2).2 = true ∧
    (sendMessageBegin (sendMessageBegin st m1 id1 t1).1 m2 id2 t2).1.messages =
      st.messages ++ [{ id := id1, content := m1, role := .user, timestamp := t1 },
                      { id := id2, content := m2, role := .user, timestamp := t2 }] := by
  simp [sendMessageBegin, addMessage, hs, h1, h2]

/-- C3 witness: the amended statement at the concrete `activeState`. -/
theorem c3_sends_not_serialized_witness :
    (sendMessageBegin activeState "hello" "m1" 0).2 = true ∧
    (sendMessageBegin (sendMessageBegin activeState "hello" "m1" 0).1 "world" "m2" 1).2 = true ∧
    (sendMessageBegin (sendMessageBegin activeState "hello" "m1" 0).1 "world" "m2" 1).1.messages =
      activeState.messages ++
        [{ id := "m1", content := "hello", role := .user, timestamp := 0 },
         { id := "m2", content := "world", role := .user, timestamp := 1 }] :=
  c3_sends_not_serialized activeState "session-1" "hello" "world" "m1" "m2" 0 1 rfl
    (by decide) (by decide)

/-! ## C9 — `sendMessage` without a session -/

/-- C9 counterexample: with no session, `sendMessage` does *not* fail with
a `NoActiveSession` error — it returns silently: no error is recorded
(`error` stays `none`), nothing is appended, and no remote request is
issued.  (The transcript/no-request half of the claim holds; the error
half does not.) -/
theorem c9_counterexample :
    (sendMessageBegin absentOpenState "hello" "m9" 0).1.error = none ∧
    (sendMessageBegin absentOpenState "hello" "m9" 0).1.messages = [] ∧
    (sendMessageBegin absentOpenState "hello" "m9" 0).2 = false := by
  decide

/-- C9 (amended): with `sessionId = null`, `sendMessage` is a silent
no-op: the state (transcript, error, everything) is returned unchanged and
no remote request is issued; no `NoActiveSession` error is raised or
recorded. -/
theorem c9_absent_send_silent_noop (st : ChatState) (message msgId : String) (ts : Nat)
    (h : st.sessionId = none) :
    sendMessageBegin st message msgId ts = (st, false) := by
  simp [sendMessageBegin, h]

/-- C9 witness: the amended statement at the concrete `absentOpenState`. -/
theorem c9_absent_send_silent_noop_witness :
    sendMessageBegin absentOpenState "hi" "m1" 0 = (absentOpenState, false) :=
  c9_absent_send_silent_noop absentOpenState "hi" "m1" 0 rfl

/-! ## C6 — `setUserLocation` with an equal location -/

/-- C6 counterexample: `setUserLocation` called with exactly the stored
`(lat, lng)` still dispatches a state update (and so a state-change
notification) — and a second identical call dispatches again: the
short-circuit claimed for the coordinator does not exist in
`setUserLocation`. -/
theorem c6_counterexample :
    locatedState.userLocation = some klLocation ∧
    (setUserLocation locatedState (some klLocation)).2 = true ∧
    (setUserLocation (setUserLocation locatedState (some klLocation)).1 (some klLocation)).2 = true :=
  ⟨rfl, rfl, rfl⟩

/-- C6 (amended): `setUserLocation` itself always dispatches a state
update, even when `(lat, lng)` equals the stored value; the equality
short-circuit lives in `ChatHeader`'s location effect, which compares the
delivered `(lat, lng)` against its `previousLocation` ref and skips the
`setUserLocation` call when they are equal — so two consecutive effect
runs with an identical location trigger at most one `setUserLocation`
dispatch (the second run never calls it). -/
theorem c6_header_short_circuit (st : ChatState) (loc : Option UserLocation)
    (l : UserLocation) (refs : HeaderRefs) (il il2 : Bool) (p p2 : PermissionState) :
    (setUserLocation st loc).2 = true ∧
    (setUserLocation st loc).1.userLocation = loc ∧
    (locationEffect true (some l) il2 p2 (locationEffect true (some l) il p refs).1).2.1 = false := by
  refine ⟨rfl, rfl, ?_⟩
  rcases refs with ⟨auto, _ | p0⟩
  · simp [locationEffect]
  · by_cases hc : p0.lat ≠ l.lat ∨ p0.lng ≠ l.lng
    · simp [locationEffect, hc]
    · push_neg at hc
      simp [locationEffect, hc.1, hc.2]

/-! ## C7 — `endSession` resilience -/

/-- C7: from any state with a non-null `sessionId`, `endSession` issues the
remote delete and reaches `sessionId = null` whether that delete resolves
or rejects — a delete failure never prevents the local reset. -/
theorem c7_end_session_always_absent (st : ChatState) (sid : String) (outcome : DeleteOutcome)
    (h : st.sessionId = some sid) :
    (endSession st outcome).1.sessionId = none ∧ (endSession st outcome).2 = true := by
  cases outcome <;> simp [endSession, h, initialState]

/-- C7 witness: the statement at the concrete `activeState` with a
rejected delete. -/
theorem c7_end_session_always_absent_witness :
    (endSession activeState .rejected).1.sessionId = none ∧
    (endSession activeState .rejected).2 = true :=
  c7_end_session_always_absent activeState "session-1" .rejected rfl

/-! ## C10 — `endSession` resets the whole state -/

/-- C10: `endSession` resets the entire chat state to `initialState`
(empty transcript, no location, no error, panel closed), for every prior
state and every outcome of the remote delete. -/
theorem c10_end_session_resets_everything (st : ChatState) (outcome : DeleteOutcome) :
    (endSession st outcome).1 = initialState ∧
    (endSession st outcome).1.messages = [] ∧
    (endSession st outcome).1.userLocation = none ∧
    (endSession st outcome).1.error = none ∧
    (endSession st outcome).1.isOpen = false := by
  cases outcome <;> rcases h : st.sessionId with _ | sid <;> simp [endSession, h, initialState]

/-! ## Geolocation states and sensors for witnesses/counterexamples -/

/-- A supported, idle geolocation state. -/
def idleGeoState : GeolocationState :=
  { location := none, isLoading := false, error := none,
    isSupported := true, permission := .prompt }

/-- `idleGeoState` with an acquisition already in flight. -/
def inFlightGeoState : GeolocationState := { idleGeoState with isLoading := true }

/-- `idleGeoState` with permission already granted and a call in flight. -/
def grantedGeoState : GeolocationState :=
  { idleGeoState with isLoading := true, permission := .granted }

/-- A platform sensor that always reports `POSITION_UNAVAILABLE`. -/
def puSensor : GeolocationOptions → SensorOutcome := fun _ => .failure .positionUnavailable

/-! ## C1 — overlapping `getCurrentLocation` calls -/

/-- C1 counterexample: starting from an idle supported state, a first
`getCurrentLocation` sets `isLoading` and issues a sensor call, and a
second `getCurrentLocation` issued while that one is still in flight
*also* issues a sensor call — two physical
`navigator.geolocation.getCurrentPosition` calls, not the claimed one. -/
theorem c1_counterexample :
    (getCurrentLocationBegin idleGeoState).1.isLoading = true ∧
    (getCurrentLocationBegin idleGeoState).2 = true ∧
    (getCurrentLocationBegin (getCurrentLocationBegin idleGeoState).1).2 = true := by
  decide

/-- C1 (amended): `getCurrentLocation` performs no deduplication: whenever
the platform is supported — even with `isLoading = true`, i.e. another
acquisition in flight — a new call starts its own sensor request, whose
outcome the new caller observes independently. -/
theorem c1_no_dedup (st : GeolocationState) (h : st.isSupported = true)
    (_hl : st.isLoading = true) :
    (getCurrentLocationBegin st).2 = true ∧
    (getCurrentLocationBegin st).1.isLoading = true := by
  simp [getCurrentLocationBegin, h]

/-- C1 witness: the amended statement at the concrete in-flight state. -/
theorem c1_no_dedup_witness :
    (getCurrentLocationBegin inFlightGeoState).2 = true ∧
    (getCurrentLocationBegin inFlightGeoState).1.isLoading = true :=
  c1_no_dedup inFlightGeoState rfl rfl

/-! ## C2 — the `POSITION_UNAVAILABLE` retry loop -/

/-- Trace invariants of `tryWithOptions`: at most `attemptsLeft + 1` sensor
calls are made; the first call uses the given options; every subsequent
call uses `fallbackOptions` of the previous call's options; and the
surfaced outcome is exactly the outcome of the last sensor call. -/
theorem tryWithOptions_calls_spec (sensor : GeolocationOptions → SensorOutcome) :
    ∀ (n : Nat) (opts : GeolocationOptions),
      (tryWithOptions sensor n opts).2.length ≤ n + 1 ∧
      (tryWithOptions sensor n opts).2.head? = some opts ∧
      List.Chain' (fun a b => b = fallbackOptions a) (tryWithOptions sensor n opts).2 ∧
      ∃ last, (tryWithOptions sensor n opts).2.getLast? = some last ∧
        (tryWithOptions sensor n opts).1 = sensor last := by
  intro n
  induction n with
  | zero =>
    intro opts
    rcases hs : sensor opts with loc | code
    · have heq : tryWithOptions sensor 0 opts = (.success loc, [opts]) := by
        conv_lhs => rw [tryWithOptions]
        rw [hs]
      rw [heq]
      exact ⟨by simp, by simp, by simp, opts, by simp, by rw [hs]⟩
    · have heq : tryWithOptions sensor 0 opts = (.failure code, [opts]) := by
        conv_lhs => rw [tryWithOptions]
        rw [hs]
      rw [heq]
      exact ⟨by simp, by simp, by simp, opts, by simp, by rw [hs]⟩
  | succ n ih =>
    intro opts
    rcases hs : sensor opts with loc | code
    · have heq : tryWithOptions sensor (n + 1) opts = (.success loc, [opts]) := by
        conv_lhs => rw [tryWithOptions]
        rw [hs]
      rw [heq]
      exact ⟨by simp, by simp, by simp, opts, by simp, by rw [hs]⟩
    · by_cases hc : code = GeoErrorCode.positionUnavailable
      · subst hc
        obtain ⟨ihlen, ihhead, ihchain, last, ihlast, ihres⟩ := ih (fallbackOptions opts)
        have heq : tryWithOptions sensor (n + 1) opts =
            ((tryWithOptions sensor n (fallbackOptions opts)).1,
              opts :: (tryWithOptions sensor n (fallbackOptions opts)).2) := by
          conv_lhs => rw [tryWithOptions]
          rw [hs]
          simp
        rw [heq]
        dsimp only
        rcases hrest : (tryWithOptions sensor n (fallbackOptions opts)).2 with _ | ⟨b, t⟩
        · rw [hrest] at ihhead
          simp at ihhead
        · rw [hrest] at ihhead ihchain ihlast ihlen
          have hb : b = fallbackOptions opts := by
            simpa using ihhead
          refine ⟨?_, ?_, ?_, last, ?_, ihres⟩
          · simpa using Nat.succ_le_succ ihlen
          · simp
          · exact List.Chain'.cons hb ihchain
          · rw [List.getLast?_cons_cons]
            exact ihlast
      · have heq : tryWithOptions sensor (n + 1) opts = (.failure code, [opts]) := by
          conv_lhs => rw [tryWithOptions]
          rw [hs]
          simp [hc]
        rw [heq]
        exact ⟨by simp, by simp, by simp, opts, by simp, by rw [hs]⟩

/-- C2 counterexample: against a sensor that always fails with
`POSITION_UNAVAILABLE`, a single `getCurrentLocation` invocation issues
*three* sensor calls (the initial attempt plus two retries, timeouts
15000 → 22500 → 33750 ms), not the claimed at-most-two: `attemptsLeft`
starts at 2, so `PositionUnavailable` is retried twice, not once. -/
theorem c2_counterexample :
    ((getCurrentLocationRun idleGeoState {} false false puSensor).2.1.map
        (fun o => o.timeout)) = [some 15000, some 22500, some 33750] ∧
    ¬ (getCurrentLocationRun idleGeoState {} false false puSensor).2.1.length ≤ 2 := by
  have htrace : (getCurrentLocationRun idleGeoState {} false false puSensor).2.1 =
      [{ enableHighAccuracy := some true, timeout := some 15000, maximumAge := some 300000 },
       { enableHighAccuracy := some false, timeout := some 22500, maximumAge := some 300000 },
       { enableHighAccuracy := some false, timeout := some 33750, maximumAge := some 300000 }] := by
    have h0 : mergeOptions (getBrowserOptimizedOptions false false) {} =
        { enableHighAccuracy := some true, timeout := some 15000, maximumAge := some 300000 } := rfl
    have h1 : fallbackOptions
        { enableHighAccuracy := some true, timeout := some 15000, maximumAge := some 300000 } =
        { enableHighAccuracy := some false, timeout := some 22500, maximumAge := some 300000 } := by
      simp [fallbackOptions]
      norm_num [min_def]
    have h2 : fallbackOptions
        { enableHighAccuracy := some false, timeout := some 22500, maximumAge := some 300000 } =
        { enableHighAccuracy := some false, timeout := some 33750, maximumAge := some 300000 } := by
      simp [fallbackOptions]
      norm_num [min_def]
    have h3 : ∀ opts : GeolocationOptions, tryWithOptions puSensor 0 opts =
        (.failure .positionUnavailable, [opts]) := fun opts => rfl
    have h4 : ∀ opts : GeolocationOptions, tryWithOptions puSensor 1 opts =
        (.failure .positionUnavailable, [opts, fallbackOptions opts]) := by
      intro opts
      conv_lhs => rw [tryWithOptions]
      simp [puSensor, h3]
    have h5 : tryWithOptions puSensor 2
        { enableHighAccuracy := some true, timeout := some 15000, maximumAge := some 300000 } =
        (.failure .positionUnavailable,
          [{ enableHighAccuracy := some true, timeout := some 15000, maximumAge := some 300000 },
           { enableHighAccuracy := some false, timeout := some 22500, maximumAge := some 300000 },
           { enableHighAccuracy := some false, timeout := some 33750, maximumAge := some 300000 }]) := by
      conv_lhs => rw [tryWithOptions]
      simp [puSensor, h4, h1, h2]
    unfold getCurrentLocationRun
    rw [if_neg (by simp [idleGeoState])]
    rw [h0, h5]
  rw [htrace]
  constructor
  · rfl
  · simp

/-- A failure other than `POSITION_UNAVAILABLE` is never retried: the loop
stops after the single call and surfaces that failure, whatever
`attemptsLeft` remains. -/
theorem tryWithOptions_no_retry (sensor : GeolocationOptions → SensorOutcome)
    (n : Nat) (opts : GeolocationOptions) (code : GeoErrorCode)
    (hc : code ≠ GeoErrorCode.positionUnavailable)
    (hs : sensor opts = .failure code) :
    tryWithOptions sensor n opts = (.failure code, [opts]) := by
  cases n with
  | zero =>
    conv_lhs => rw [tryWithOptions]
    rw [hs]
  | succ n =>
    conv_lhs => rw [tryWithOptions]
    rw [hs]
    simp [hc]

/-- C2 (amended): on `POSITION_UNAVAILABLE` the acquisition retries at most
*twice* (so at most three sensor calls per invocation): the first call
uses the merged browser/caller options and each retry uses the previous
attempt's options relaxed by `fallbackOptions` (`highAccuracy := false`,
`timeout := min(previous × 1.5, 60000)`); the whole invocation resolves to
exactly the outcome of the *last* sensor call — `successHandler` applied
to its location on success, `errorHandler` applied to its code on failure
— and a first failure other than `POSITION_UNAVAILABLE` stops the loop at
one sensor call with that failure surfaced as-is. -/
theorem c2_retry_policy (st : GeolocationState) (options : GeolocationOptions)
    (isFirefox isSafari : Bool) (sensor : GeolocationOptions → SensorOutcome)
    (h : st.isSupported = true) :
    (getCurrentLocationRun st options isFirefox isSafari sensor).2.1.length ≤ 3 ∧
    (getCurrentLocationRun st options isFirefox isSafari sensor).2.1.head? =
      some (mergeOptions (getBrowserOptimizedOptions isFirefox isSafari) options) ∧
    List.Chain' (fun a b => b = fallbackOptions a)
      (getCurrentLocationRun st options isFirefox isSafari sensor).2.1 ∧
    (∃ last, (getCurrentLocationRun st options isFirefox isSafari sensor).2.1.getLast? =
        some last ∧
      getCurrentLocationRun st options isFirefox isSafari sensor =
        (match sensor last with
          | .success loc =>
              (successHandler { st with isLoading := true, error := none } loc,
                (getCurrentLocationRun st options isFirefox isSafari sensor).2.1, some loc)
          | .failure code =>
              (errorHandler { st with isLoading := true, error := none } code,
                (getCurrentLocationRun st options isFirefox isSafari sensor).2.1, none))) ∧
    (∀ code, code ≠ GeoErrorCode.positionUnavailable →
      sensor (mergeOptions (getBrowserOptimizedOptions isFirefox isSafari) options) =
        .failure code →
      getCurrentLocationRun st options isFirefox isSafari sensor =
        (errorHandler { st with isLoading := true, error := none } code,
          [mergeOptions (getBrowserOptimizedOptions isFirefox isSafari) options], none)) := by
  rcases htr : tryWithOptions sensor 2
      (mergeOptions (getBrowserOptimizedOptions isFirefox isSafari) options) with ⟨res, calls⟩
  obtain ⟨hlen, hhead, hchain, last, hlast, hres⟩ :=
    tryWithOptions_calls_spec sensor 2
      (mergeOptions (getBrowserOptimizedOptions isFirefox isSafari) options)
  rw [htr] at hlen hhead hchain hlast hres
  dsimp only at hlen hhead hchain hlast hres
  have hrunS : ∀ loc, res = .success loc →
      getCurrentLocationRun st options isFirefox isSafari sensor =
        (successHandler { st with isLoading := true, error := none } loc, calls, some loc) := by
    intro loc hres3
    unfold getCurrentLocationRun
    rw [if_neg (by simp [h])]
    rw [hres3] at htr
    rw [htr]
  have hrunF : ∀ code, res = .failure code →
      getCurrentLocationRun st options isFirefox isSafari sensor =
        (errorHandler { st with isLoading := true, error := none } code, calls, none) := by
    intro code hres3
    unfold getCurrentLocationRun
    rw [if_neg (by simp [h])]
    rw [hres3] at htr
    rw [htr]
  have htrace : (getCurrentLocationRun st options isFirefox isSafari sensor).2.1 = calls := by
    rcases res with loc | code
    · rw [hrunS loc rfl]
    · rw [hrunF code rfl]
  refine ⟨?_, ?_, ?_, ⟨last, ?_, ?_⟩, ?_⟩
  · rw [htrace]; exact hlen
  · rw [htrace]; exact hhead
  · rw [htrace]; exact hchain
  · rw [htrace]; exact hlast
  · rcases hsl : sensor last with loc | code
    · rw [hrunS loc (hres.trans hsl)]
    · rw [hrunF code (hres.trans hsl)]
  · intro code hne hsens
    have h2 := htr.symm.trans
      (tryWithOptions_no_retry sensor 2
        (mergeOptions (getBrowserOptimizedOptions isFirefox isSafari) options) code hne hsens)
    injection h2 with hres2 hcalls2
    rw [hrunF code hres2, hcalls2]

/-- C2 witness: the amended statement at the concrete idle state against
the always-`POSITION_UNAVAILABLE` sensor. -/
theorem c2_retry_policy_witness :
    (getCurrentLocationRun idleGeoState {} false false puSensor).2.1.length ≤ 3 ∧
    (getCurrentLocationRun idleGeoState {} false false puSensor).2.1.head? =
      some (mergeOptions (getBrowserOptimizedOptions false false) {}) ∧
    List.Chain' (fun a b => b = fallbackOptions a)
      (getCurrentLocationRun idleGeoState {} false false puSensor).2.1 ∧
    (∃ last, (getCurrentLocationRun idleGeoState {} false false puSensor).2.1.getLast? =
        some last ∧
      getCurrentLocationRun idleGeoState {} false false puSensor =
        (match puSensor last with
          | .success loc =>
              (successHandler { idleGeoState with isLoading := true, error := none } loc,
                (getCurrentLocationRun idleGeoState {} false false puSensor).2.1, some loc)
          | .failure code =>
              (errorHandler { idleGeoState with isLoading := true, error := none } code,
                (getCurrentLocationRun idleGeoState {} false false puSensor).2.1, none))) ∧
    (∀ code, code ≠ GeoErrorCode.positionUnavailable →
      puSensor (mergeOptions (getBrowserOptimizedOptions false false) {}) = .failure code →
      getCurrentLocationRun idleGeoState {} false false puSensor =
        (errorHandler { idleGeoState with isLoading := true, error := none } code,
          [mergeOptions (getBrowserOptimizedOptions false false) {}], none)) :=
  c2_retry_policy idleGeoState {} false false puSensor rfl

/-! ## C8 — permission transitions -/

/-- C8 counterexample: with permission already `granted`, an acquisition
failing with `TIMEOUT`, `POSITION_UNAVAILABLE` or the unknown default does
*not* leave the permission field unchanged — `errorHandler` writes its
`'unknown'` default into the state. -/
theorem c8_counterexample :
    grantedGeoState.permission = .granted ∧
    (errorHandler grantedGeoState .timedOut).permission = .unknown ∧
    (errorHandler grantedGeoState .positionUnavailable).permission = .unknown ∧
    (errorHandler grantedGeoState .unknownError).permission = .unknown := by
  decide

/-- C8 (amended): the permission field moves to `granted` on success, to
`denied` on a `PERMISSION_DENIED` failure, to the platform-reported state
on a permissions-API signal — and every *other* acquisition failure
(`PositionUnavailable`, `Timeout`, unknown) resets it to `unknown` rather
than leaving it unchanged. -/
theorem c8_permission_transitions (st : GeolocationState) (code : GeoErrorCode)
    (loc : UserLocation) (result : PermissionState) :
    (errorHandler st code).permission =
      (if code = .permissionDenied then .denied else .unknown) ∧
    (successHandler st loc).permission = .granted ∧
    (applyPlatformPermission st result).permission = result := by
  cases code <;>
    simp [errorHandler, successHandler, applyPlatformPermission, errorPermissionFor]

/-! ## Proximity index lemmas -/

/-- Looking up a key built by mapping `o ↦ (o.id, g o)` over a list with
pairwise-distinct ids returns the pair built from the matching element. -/
theorem find_entry {β : Type} (g : Outlet → β) :
    ∀ (l : List Outlet), (List.map Outlet.id l).Nodup → ∀ A ∈ l,
      (List.map (fun o => (o.id, g o)) l).find? (fun p => p.1 == A.id) = some (A.id, g A) := by
  intro l
  induction l with
  | nil =>
    intro _ A hA
    exact absurd hA (List.not_mem_nil A)
  | cons o rest ih =>
    intro hnd A hA
    rw [List.map_cons] at hnd
    rw [List.map_cons]
    rcases List.mem_cons.mp hA with rfl | hmem
    · rw [List.find?_cons_of_pos]
      simp
    · have hne : o.id ≠ A.id := by
        intro he
        exact (List.nodup_cons.mp hnd).1 (he ▸ List.mem_map_of_mem Outlet.id hmem)
      rw [List.find?_cons_of_neg]
      · exact ih (List.nodup_cons.mp hnd).2 A hmem
      · simp [hne]

/-- With pairwise-distinct ids, `mapGet` on the index returns exactly the
record computed for the looked-up outlet. -/
theorem mapGet_calculateIntersections (radius : ℝ) (outlets : List Outlet)
    (hnd : (List.map Outlet.id outlets).Nodup) (A : Outlet) (hA : A ∈ outlets) :
    mapGet (calculateIntersections radius outlets) A.id =
      some { outletId := A.id,
             hasIntersection := decide (0 < (intersectingOutletsFor radius A outlets).length),
             intersectingOutlets := intersectingOutletsFor radius A outlets } := by
  unfold mapGet calculateIntersections
  rw [find_entry (fun outlet =>
    ({ outletId := outlet.id,
       hasIntersection := decide (0 < (intersectingOutletsFor radius outlet outlets).length),
       intersectingOutlets := intersectingOutletsFor radius outlet outlets } :
        OutletIntersectionData)) outlets hnd A hA]
  rfl

/-- Membership in a per-outlet neighbor list, characterized over the input
outlet list. -/
theorem mem_intersectingOutletsFor (radius : ℝ) (outlet : Outlet) (outlets : List Outlet)
    (n : NeighborOutlet) :
    n ∈ intersectingOutletsFor radius outlet outlets ↔
      ∃ other ∈ outlets, other.id ≠ outlet.id ∧
        calculateDistance outlet.latitude outlet.longitude
          other.latitude other.longitude ≤ radius ∧
        n = { toOutlet := other,
              distance_km := roundTo2 (calculateDistance outlet.latitude outlet.longitude
                other.latitude other.longitude / 1000) } := by
  unfold intersectingOutletsFor collectedNeighbors
  rw [List.mem_insertionSort, List.mem_map]
  constructor
  · rintro ⟨other, hmem, rfl⟩
    rw [List.mem_filter] at hmem
    obtain ⟨ho, hcond⟩ := hmem
    rw [decide_eq_true_eq] at hcond
    exact ⟨other, ho, hcond.1, hcond.2, rfl⟩
  · rintro ⟨other, ho, hne, hdist, rfl⟩
    refine ⟨other, ?_, rfl⟩
    rw [List.mem_filter]
    refine ⟨ho, ?_⟩
    rw [decide_eq_true_eq]
    exact ⟨hne, hdist⟩

/-- Characterization of `neighborRecorded` over the input outlet list, for
outlets with pairwise-distinct ids. -/
theorem neighborRecorded_iff (radius : ℝ) (outlets : List Outlet)
    (hnd : (List.map Outlet.id outlets).Nodup) (A B : Outlet)
    (hA : A ∈ outlets) (hB : B ∈ outlets) (d : ℝ) :
    neighborRecorded (calculateIntersections radius outlets) A.id B.id d ↔
      (B.id ≠ A.id ∧
        calculateDistance A.latitude A.longitude B.latitude B.longitude ≤ radius ∧
        d = roundTo2 (calculateDistance A.latitude A.longitude
          B.latitude B.longitude / 1000)) := by
  unfold neighborRecorded
  rw [mapGet_calculateIntersections radius outlets hnd A hA]
  constructor
  · rintro ⟨rec, hrec, n, hn, hid, hd⟩
    obtain rfl : _ = rec := Option.some.inj hrec
    rw [mem_intersectingOutletsFor] at hn
    obtain ⟨other, ho, hne, hdist, rfl⟩ := hn
    obtain rfl : other = B :=
      List.inj_on_of_nodup_map hnd ho hB hid
    exact ⟨hne, hdist, hd.symm⟩
  · rintro ⟨hne, hdist, rfl⟩
    refine ⟨_, rfl, ?_⟩
    refine ⟨{ toOutlet := B,
              distance_km := roundTo2 (calculateDistance A.latitude A.longitude
                B.latitude B.longitude / 1000) }, ?_, rfl, rfl⟩
    rw [mem_intersectingOutletsFor]
    exact ⟨B, hB, hne, hdist, rfl⟩

/-! ## C4 — symmetry and no self-neighbor -/

/-- C4: for outlet lists with pairwise-distinct ids and any radius, the
index is symmetric — `B` is recorded among `A`'s neighbors with rounded
distance `d` iff `A` is recorded among `B`'s neighbors with the same `d` —
no outlet is recorded in its own neighbor list, and the unrounded
distances of the two directions agree within `1e-6` km (they are equal). -/
theorem c4_symmetry_and_no_self (radius : ℝ) (outlets : List Outlet)
    (hnd : (List.map Outlet.id outlets).Nodup) (A B : Outlet)
    (hA : A ∈ outlets) (hB : B ∈ outlets) (d : ℝ) :
    (neighborRecorded (calculateIntersections radius outlets) A.id B.id d ↔
      neighborRecorded (calculateIntersections radius outlets) B.id A.id d) ∧
    ¬ neighborRecorded (calculateIntersections radius outlets) A.id A.id d ∧
    |calculateDistance A.latitude A.longitude B.latitude B.longitude / 1000 -
      calculateDistance B.latitude B.longitude A.latitude A.longitude / 1000| ≤ 1e-6 := by
  have hsym := calculateDistance_symm A.latitude A.longitude B.latitude B.longitude
  refine ⟨?_, ?_, ?_⟩
  · rw [neighborRecorded_iff radius outlets hnd A B hA hB d,
        neighborRecorded_iff radius outlets hnd B A hB hA d, hsym]
    constructor
    · rintro ⟨h1, h2, h3⟩
      exact ⟨h1.symm, h2, h3⟩
    · rintro ⟨h1, h2, h3⟩
      exact ⟨h1.symm, h2, h3⟩
  · rw [neighborRecorded_iff radius outlets hnd A A hA hA d]
    rintro ⟨h1, -, -⟩
    exact h1 rfl
  · rw [hsym, sub_self, abs_zero]
    norm_num

/-- Two sample outlets with distinct ids at the same coordinates. -/
noncomputable def outletA : Outlet :=
  { id := 1, name := "A", address := "addr A", latitude := 3.157, longitude := 101.7123 }

/-- Second sample outlet, id 2. -/
noncomputable def outletB : Outlet :=
  { id := 2, name := "B", address := "addr B", latitude := 3.157, longitude := 101.7123 }

/-- C4 witness: the statement at the concrete two-outlet list. -/
theorem c4_symmetry_and_no_self_witness :
    ((neighborRecorded (calculateIntersections 5000 [outletA, outletB]) outletA.id outletB.id 0 ↔
      neighborRecorded (calculateIntersections 5000 [outletA, outletB]) outletB.id outletA.id 0) ∧
     ¬ neighborRecorded (calculateIntersections 5000 [outletA, outletB]) outletA.id outletA.id 0 ∧
     |calculateDistance outletA.latitude outletA.longitude
         outletB.latitude outletB.longitude / 1000 -
       calculateDistance outletB.latitude outletB.longitude
         outletA.latitude outletA.longitude / 1000| ≤ 1e-6) :=
  c4_symmetry_and_no_self 5000 [outletA, outletB] (by decide) outletA outletB
    (by simp) (by simp) 0

/-! ## C5 — neighbor list ordering -/

/-- The ordering asserted by the spec: ascending distance with ties broken
by ascending outlet id. -/
def distThenId (a b : NeighborOutlet) : Prop :=
  a.distance_km < b.distance_km ∨ (a.distance_km = b.distance_km ∧ a.id ≤ b.id)

/-- Third sample outlet: id 3, same coordinates as `outletA`. -/
noncomputable def outletP : Outlet :=
  { id := 3, name := "P", address := "addr P", latitude := 3.157, longitude := 101.7123 }

/-- Fourth sample outlet: id 2, same coordinates as `outletA`. -/
noncomputable def outletQ : Outlet :=
  { id := 2, name := "Q", address := "addr Q", latitude := 3.157, longitude := 101.7123 }

/-- The neighbor record `calculateIntersections` builds for `outletP` as a
neighbor of `outletA`. -/
noncomputable def nbP : NeighborOutlet :=
  { toOutlet := outletP,
    distance_km := roundTo2 (calculateDistance outletA.latitude outletA.longitude
      outletP.latitude outletP.longitude / 1000) }

/-- The neighbor record `calculateIntersections` builds for `outletQ` as a
neighbor of `outletA`. -/
noncomputable def nbQ : NeighborOutlet :=
  { toOutlet := outletQ,
    distance_km := roundTo2 (calculateDistance outletA.latitude outletA.longitude
      outletQ.latitude outletQ.longitude / 1000) }

/-- The filter condition rejects `outletA` against itself. -/
theorem condAA_false :
    decide (outletA.id ≠ outletA.id ∧ isWithinRadius outletA.latitude outletA.longitude
      outletA.latitude outletA.longitude 5000) = false := by
  rw [decide_eq_false_iff_not]
  rintro ⟨hne, -⟩
  exact hne rfl

/-- The filter condition keeps `outletP` against `outletA`. -/
theorem condPA_true :
    decide (outletP.id ≠ outletA.id ∧ isWithinRadius outletA.latitude outletA.longitude
      outletP.latitude outletP.longitude 5000) = true := by
  rw [decide_eq_true_eq]
  refine ⟨by decide, ?_⟩
  show calculateDistance outletA.latitude outletA.longitude
      outletP.latitude outletP.longitude ≤ 5000
  have h0 : calculateDistance outletA.latitude outletA.longitude
      outletP.latitude outletP.longitude = 0 := calculateDistance_self _ _
  rw [h0]
  norm_num

/-- The filter condition keeps `outletQ` against `outletA`. -/
theorem condQA_true :
    decide (outletQ.id ≠ outletA.id ∧ isWithinRadius outletA.latitude outletA.longitude
      outletQ.latitude outletQ.longitude 5000) = true := by
  rw [decide_eq_true_eq]
  refine ⟨by decide, ?_⟩
  show calculateDistance outletA.latitude outletA.longitude
      outletQ.latitude outletQ.longitude ≤ 5000
  have h0 : calculateDistance outletA.latitude outletA.longitude
      outletQ.latitude outletQ.longitude = 0 := calculateDistance_self _ _
  rw [h0]
  norm_num

/-- `outletA`'s collected neighbors among `[outletA, outletP, outletQ]`,
in traversal order: `outletP` (id 3) then `outletQ` (id 2). -/
theorem collected_APQ :
    collectedNeighbors 5000 outletA [outletA, outletP, outletQ] = [nbP, nbQ] := by
  unfold collectedNeighbors
  rw [List.filter_cons, List.filter_cons, List.filter_cons, List.filter_nil,
      condAA_false, condPA_true, condQA_true]
  simp [nbP, nbQ]

/-- Sorting `[nbP, nbQ]` by distance leaves the tie in traversal order. -/
theorem sort_nbP_nbQ : List.insertionSort nbLE [nbP, nbQ] = [nbP, nbQ] := by
  have h1 : List.insertionSort nbLE [nbP, nbQ] =
      List.orderedInsert nbLE nbP (List.insertionSort nbLE [nbQ]) := rfl
  have h2 : List.insertionSort nbLE [nbQ] = [nbQ] := rfl
  rw [h1, h2, List.orderedInsert, if_pos (show nbLE nbP nbQ from le_refl nbP.distance_km)]

/-- `outletA`'s sorted neighbor list among `[outletA, outletP, outletQ]`. -/
theorem intersecting_APQ :
    intersectingOutletsFor 5000 outletA [outletA, outletP, outletQ] = [nbP, nbQ] := by
  unfold intersectingOutletsFor
  rw [collected_APQ, sort_nbP_nbQ]

/-- C5 counterexample: with three outlets at identical coordinates listed
as ids 1, 3, 2, the equidistant neighbors of outlet 1 are recorded as
`[id 3, id 2]` — input order, because the JS comparator examines only
`distance_km` — so the claimed tie-break by ascending `outletId` fails. -/
theorem c5_counterexample :
    ¬ (∀ entry ∈ calculateIntersections 5000 [outletA, outletP, outletQ],
        entry.2.intersectingOutlets.Sorted distThenId) := by
  intro hall
  have hmem : (outletA.id,
      ({ outletId := outletA.id,
         hasIntersection :=
           decide (0 < (intersectingOutletsFor 5000 outletA [outletA, outletP, outletQ]).length),
         intersectingOutlets :=
           intersectingOutletsFor 5000 outletA [outletA, outletP, outletQ] } :
         OutletIntersectionData))
      ∈ calculateIntersections 5000 [outletA, outletP, outletQ] := by
    unfold calculateIntersections
    exact List.mem_map_of_mem _ (List.mem_cons_self _ _)
  have hs := hall _ hmem
  dsimp only at hs
  rw [intersecting_APQ] at hs
  rcases (List.sorted_cons.mp hs).1 nbQ (by simp) with hlt | ⟨-, hle⟩
  · have hdd : nbP.distance_km = nbQ.distance_km := rfl
    rw [hdd] at hlt
    exact lt_irrefl _ hlt
  · revert hle
    decide

/-- C5 (amended): every neighbor list in the index is sorted ascending by
recorded `distance_km`; neighbors at equal distance are left in the input
list's traversal order (the sort is stable: any `distance_km`-nondecreasing
run of the collected, pre-sort neighbor list survives as a sublist of the
sorted output), not reordered by `outletId`. -/
theorem c5_sorted_by_distance (radius : ℝ) (outlets : List Outlet)
    (entry : Int × OutletIntersectionData)
    (hentry : entry ∈ calculateIntersections radius outlets) :
    entry.2.intersectingOutlets.Sorted nbLE ∧
    ∃ outlet ∈ outlets,
      entry.2.intersectingOutlets = intersectingOutletsFor radius outlet outlets ∧
      ∀ c : List NeighborOutlet, c.Pairwise nbLE →
        c.Sublist (collectedNeighbors radius outlet outlets) →
        c.Sublist entry.2.intersectingOutlets := by
  unfold calculateIntersections at hentry
  rw [List.mem_map] at hentry
  obtain ⟨outlet, hmem, rfl⟩ := hentry
  dsimp only
  refine ⟨List.sorted_insertionSort nbLE _, outlet, hmem, rfl, ?_⟩
  intro c hc hsub
  exact List.sublist_insertionSort hc hsub

/-- C5 witness: the amended statement at the concrete list
`[outletA, outletP, outletQ]`, on the entry for `outletA`. -/
theorem c5_sorted_by_distance_witness :
    ((outletA.id,
      ({ outletId := outletA.id,
         hasIntersection :=
           decide (0 < (intersectingOutletsFor 5000 outletA [outletA, outletP, outletQ]).length),
         intersectingOutlets :=
           intersectingOutletsFor 5000 outletA [outletA, outletP, outletQ] } :
         OutletIntersectionData)).2.intersectingOutlets.Sorted nbLE) ∧
    ∃ outlet ∈ [outletA, outletP, outletQ],
      (intersectingOutletsFor 5000 outletA [outletA, outletP, outletQ] =
        intersectingOutletsFor 5000 outlet [outletA, outletP, outletQ]) ∧
      ∀ c : List NeighborOutlet, c.Pairwise nbLE →
        c.Sublist (collectedNeighbors 5000 outlet [outletA, outletP, outletQ]) →
        c.Sublist (intersectingOutletsFor 5000 outletA [outletA, outletP, outletQ]) :=
  c5_sorted_by_distance 5000 [outletA, outletP, outletQ] _
    (List.mem_map_of_mem _ (List.mem_cons_self _ _))

end McdVerify
